import Mathlib

/-!
# Configuration headers of `design-for-iot`

The repository consists of four `config.h` headers, one per sketch.  Each header is a
flat sequence of top-level declarations binding a name to a string literal, either as
an object-like preprocessor definition (`#define name "value"`) or, in the climate
visualiser, as a constant object (`const String name = "value";`).

A header is embedded as the list of its declarations in source order; comments are
dropped, as the preprocessor drops them before a definition is recorded.
-/

namespace DesignForIot

/-- A top-level declaration of a configuration header. -/
inductive Decl where
  /-- The preprocessor line `#define name "value"`. -/
  | define (name : String) (value : String)
  /-- The object declaration `const String name = "value";`. -/
  | constString (name : String) (value : String)
  deriving DecidableEq, Repr

/-- The identifier a declaration binds. -/
def Decl.name : Decl → String
  | .define n _ => n
  | .constString n _ => n

/-- The string literal a declaration binds its identifier to. -/
def Decl.value : Decl → String
  | .define _ v => v
  | .constString _ v => v

/-- A header file: its declarations, in source order. -/
abbrev Header := List Decl

namespace A3_WeatherStation

/-- The file `A3_WeatherStation/config.h`. -/
def config : Header :=
  [ .define "wifi_ssid" "",
    .define "wifi_password" "",
    .define "mqtt_server" "",
    .define "mqtt_user" "",
    .define "mqtt_password" "",
    .define "indoorTempFeed" "weather/temperature/indoors",
    .define "outdoorTempFeed" "weather/temperature/outdoors",
    .define "humidityFeed" "weather/humidity",
    .define "pressureFeed" "weather/pressure",
    .define "lightsFeed" "lights/livingroom" ]

end A3_WeatherStation

namespace A4_TwitterTones

/-- The file `A4_TwitterTones/A4_Arduino/config.h`. -/
def config : Header :=
  [ .define "wifi_ssid" "",
    .define "wifi_password" "",
    .define "mqtt_server" "",
    .define "mqtt_user" "",
    .define "mqtt_password" "",
    .define "twitterQueryFeed" "twitter/query",
    .define "twitterResponseFeed" "twitter/sentiment",
    .define "lightsFeed" "lights/livingroom" ]

end A4_TwitterTones

namespace ClimateChangeVisualizations

/-- The file `ClimateChangeVisualizations/ArduinoCode/config.h`. -/
def config : Header :=
  [ .define "wifi_ssid" "",
    .define "wifi_password" "",
    .define "mqtt_server" "",
    .define "mqtt_user" "",
    .define "mqtt_password" "",
    .define "locationFeed" "location",
    .define "historicalFeed" "weather/history",
    .define "dailyFeed" "weather/daily",
    .define "queryFeed" "weather/query",
    .constString "geolocation_key" "",
    .constString "weather_api_key" "" ]

end ClimateChangeVisualizations

namespace ICE5

/-- The file `ICE5/config.h`. -/
def config : Header :=
  [ .define "mqtt_server" "",
    .define "mqtt_user" "",
    .define "mqtt_password" "",
    .define "feed1" "super/heroes",
    .define "feed2" "super/mario",
    .define "feed3" "super/star",
    .define "wifi_ssid" "",
    .define "wifi_password" "" ]

end ICE5

/-- The four headers of the repository: weather station, Twitter tones, climate
visualiser, in-class exercise. -/
def bundles : List Header :=
  [A3_WeatherStation.config, A4_TwitterTones.config,
   ClimateChangeVisualizations.config, ICE5.config]

/-- The names a header binds, in source order. -/
def boundNames (h : Header) : List String := h.map Decl.name

/-- What an identifier stands for in a translation unit that includes the header:
the value of the first declaration binding it, if there is one. -/
def resolve (h : Header) (n : String) : Option String :=
  (h.find? (fun d => d.name == n)).map Decl.value

/-- The Wi-Fi and MQTT broker credential fields. -/
def credentialFields : List String :=
  ["wifi_ssid", "wifi_password", "mqtt_server", "mqtt_user", "mqtt_password"]

/-- The third-party service key fields. -/
def apiKeyFields : List String := ["geolocation_key", "weather_api_key"]

/-- A declaration is a feed when it is neither a credential nor a service key. -/
def isFeed (d : Decl) : Bool :=
  !(credentialFields.contains d.name || apiKeyFields.contains d.name)

/-- The feed declarations of a header, in source order. -/
def feeds (h : Header) : List Decl := h.filter isFeed

/-- The topic strings of a header: the values of its feeds, in source order. -/
def topicValues (h : Header) : List String := (feeds h).map Decl.value

/-- The levels of a topic: the pieces between consecutive `/` separators. -/
def splitLevels : List Char → List (List Char)
  | [] => [[]]
  | c :: cs =>
    if c = '/' then [] :: splitLevels cs
    else
      match splitLevels cs with
      | [] => [[c]]
      | l :: ls => (c :: l) :: ls

/-- The levels of a topic string. -/
def levels (t : String) : List (List Char) := splitLevels t.toList

/-- A topic is hierarchical in the strict sense: it contains a `/` and splits on `/`
into two or more levels, none of them empty. -/
def Hierarchical (t : String) : Prop :=
  '/' ∈ t.toList ∧ 2 ≤ (levels t).length ∧ ∀ l ∈ levels t, l ≠ []

instance : DecidablePred Hierarchical := fun t => by
  unfold Hierarchical; infer_instance

/-- A topic name that can be published to: non-empty, free of the wildcard
characters `+` and `#`, neither starting nor ending with `/`, without `//`, and
hence without an empty level. -/
def WellFormedTopic (t : String) : Prop :=
  t ≠ "" ∧ '+' ∉ t.toList ∧ '#' ∉ t.toList ∧
  t.toList.head? ≠ some '/' ∧ t.toList.getLast? ≠ some '/' ∧
  ¬ (['/', '/'] <:+: t.toList) ∧ ∀ l ∈ levels t, l ≠ []

instance : DecidablePred WellFormedTopic := fun t => by
  unfold WellFormedTopic; infer_instance

/-- The field set section 4.1 of the specification documents for the weather station. -/
def specFields_WeatherStation : List String :=
  ["wifi_ssid", "wifi_password", "mqtt_server", "mqtt_user", "mqtt_password",
   "indoorTempFeed", "outdoorTempFeed", "humidityFeed", "pressureFeed", "lightsFeed"]

/-- The field set section 4.2 of the specification documents for the tone player. -/
def specFields_TwitterTones : List String :=
  ["wifi_ssid", "wifi_password", "mqtt_server", "mqtt_user", "mqtt_password",
   "twitterQueryFeed", "twitterResponseFeed", "lightsFeed"]

/-- The field set section 4.3 of the specification documents for the climate
visualiser. -/
def specFields_ClimateViz : List String :=
  ["wifi_ssid", "wifi_password", "mqtt_server", "mqtt_user", "mqtt_password",
   "locationFeed", "historicalFeed", "dailyFeed", "queryFeed",
   "geolocation_key", "weather_api_key"]

/-- The field set section 4.4 of the specification documents for the exercise. -/
def specFields_Exercise : List String :=
  ["wifi_ssid", "wifi_password", "mqtt_server", "mqtt_user", "mqtt_password",
   "feed1", "feed2", "feed3"]

/-- A header exposes exactly a documented field set: the names it binds are the
documented ones, none missing and none extra, and each documented name resolves to
a string. -/
def ExposesExactly (h : Header) (fields : List String) : Prop :=
  (∀ n, n ∈ boundNames h ↔ n ∈ fields) ∧ ∀ n ∈ fields, ∃ v, resolve h n = some v

/-! ## Helper lemmas -/

/-- Two lists that contain one another have the same members, and a name that
resolves to something under every member test resolves to a string. -/
theorem exposesExactly_of_subset {h : Header} {fields : List String}
    (h₁ : ∀ n ∈ boundNames h, n ∈ fields) (h₂ : ∀ n ∈ fields, n ∈ boundNames h)
    (h₃ : ∀ n ∈ fields, (resolve h n).isSome = true) : ExposesExactly h fields :=
  ⟨fun n => ⟨h₁ n, h₂ n⟩, fun n hn => Option.isSome_iff_exists.mp (h₃ n hn)⟩

/-- The feeds of the weather station header. -/
theorem feeds_weatherStation :
    boundNames (feeds A3_WeatherStation.config) =
      ["indoorTempFeed", "outdoorTempFeed", "humidityFeed", "pressureFeed", "lightsFeed"] := by
  decide

/-- The feeds of the tone player header. -/
theorem feeds_twitterTones :
    boundNames (feeds A4_TwitterTones.config) =
      ["twitterQueryFeed", "twitterResponseFeed", "lightsFeed"] := by
  decide

/-- The feeds of the climate visualiser header. -/
theorem feeds_climateViz :
    boundNames (feeds ClimateChangeVisualizations.config) =
      ["locationFeed", "historicalFeed", "dailyFeed", "queryFeed"] := by
  decide

/-- The feeds of the exercise header. -/
theorem feeds_exercise :
    boundNames (feeds ICE5.config) = ["feed1", "feed2", "feed3"] := by
  decide

/-! ## Topic defaults -/

/-- Claim C1. In the unmodified weather station header the five topic fields are
`indoorTempFeed`, `outdoorTempFeed`, `humidityFeed`, `pressureFeed` and `lightsFeed`,
and they stand for `weather/temperature/indoors`, `weather/temperature/outdoors`,
`weather/humidity`, `weather/pressure` and `lights/livingroom` respectively. -/
theorem weatherStation_topic_defaults :
    resolve A3_WeatherStation.config "indoorTempFeed" = some "weather/temperature/indoors" ∧
    resolve A3_WeatherStation.config "outdoorTempFeed" = some "weather/temperature/outdoors" ∧
    resolve A3_WeatherStation.config "humidityFeed" = some "weather/humidity" ∧
    resolve A3_WeatherStation.config "pressureFeed" = some "weather/pressure" ∧
    resolve A3_WeatherStation.config "lightsFeed" = some "lights/livingroom" ∧
    topicValues A3_WeatherStation.config =
      ["weather/temperature/indoors", "weather/temperature/outdoors", "weather/humidity",
       "weather/pressure", "lights/livingroom"] := by
  decide

/-- Claim C2. In the unmodified climate visualiser header `locationFeed`,
`historicalFeed`, `dailyFeed` and `queryFeed` stand for `location`, `weather/history`,
`weather/daily` and `weather/query`, and both `geolocation_key` and `weather_api_key`
are the empty string. -/
theorem climateViz_defaults :
    resolve ClimateChangeVisualizations.config "locationFeed" = some "location" ∧
    resolve ClimateChangeVisualizations.config "historicalFeed" = some "weather/history" ∧
    resolve ClimateChangeVisualizations.config "dailyFeed" = some "weather/daily" ∧
    resolve ClimateChangeVisualizations.config "queryFeed" = some "weather/query" ∧
    resolve ClimateChangeVisualizations.config "geolocation_key" = some "" ∧
    resolve ClimateChangeVisualizations.config "weather_api_key" = some "" ∧
    topicValues ClimateChangeVisualizations.config =
      ["location", "weather/history", "weather/daily", "weather/query"] := by
  decide

/-- Claim C3. In the unmodified exercise header `feed1`, `feed2` and `feed3` stand for
`super/heroes`, `super/mario` and `super/star`. -/
theorem exercise_topic_defaults :
    resolve ICE5.config "feed1" = some "super/heroes" ∧
    resolve ICE5.config "feed2" = some "super/mario" ∧
    resolve ICE5.config "feed3" = some "super/star" ∧
    topicValues ICE5.config = ["super/heroes", "super/mario", "super/star"] := by
  decide

/-- Claim C4. In the unmodified tone player header `twitterQueryFeed`,
`twitterResponseFeed` and `lightsFeed` stand for `twitter/query`, `twitter/sentiment`
and `lights/livingroom`. -/
theorem twitterTones_topic_defaults :
    resolve A4_TwitterTones.config "twitterQueryFeed" = some "twitter/query" ∧
    resolve A4_TwitterTones.config "twitterResponseFeed" = some "twitter/sentiment" ∧
    resolve A4_TwitterTones.config "lightsFeed" = some "lights/livingroom" ∧
    topicValues A4_TwitterTones.config =
      ["twitter/query", "twitter/sentiment", "lights/livingroom"] := by
  decide

/-! ## Credentials and service keys -/

/-- Claim C5. In each of the four headers every credential field (`wifi_ssid`,
`wifi_password`, `mqtt_server`, `mqtt_user`, `mqtt_password`) stands for the empty
string, in the climate visualiser both service keys stand for the empty string, and no
declaration of a credential or key in any header has a non-empty value. -/
theorem credentials_default_empty :
    (∀ h ∈ bundles, ∀ n ∈ credentialFields, resolve h n = some "") ∧
    (∀ n ∈ apiKeyFields, resolve ClimateChangeVisualizations.config n = some "") ∧
    (∀ h ∈ bundles, ∀ d ∈ h,
      d.name ∈ credentialFields ∨ d.name ∈ apiKeyFields → d.value = "") := by
  decide

/-! ## Exposed field sets -/

/-- Claim C6. Each header binds exactly the field set section 4 of the specification
documents for it, none missing and none extra, and each documented name resolves to a
string; in particular the weather station binds exactly the ten names of section 4.1. -/
theorem headers_expose_documented_fields :
    ExposesExactly A3_WeatherStation.config specFields_WeatherStation ∧
    ExposesExactly A4_TwitterTones.config specFields_TwitterTones ∧
    ExposesExactly ClimateChangeVisualizations.config specFields_ClimateViz ∧
    ExposesExactly ICE5.config specFields_Exercise ∧
    boundNames A3_WeatherStation.config =
      ["wifi_ssid", "wifi_password", "mqtt_server", "mqtt_user", "mqtt_password",
       "indoorTempFeed", "outdoorTempFeed", "humidityFeed", "pressureFeed", "lightsFeed"] :=
  ⟨exposesExactly_of_subset (by decide) (by decide) (by decide),
   exposesExactly_of_subset (by decide) (by decide) (by decide),
   exposesExactly_of_subset (by decide) (by decide) (by decide),
   exposesExactly_of_subset (by decide) (by decide) (by decide),
   by decide⟩

/-! ## Shape of the topic strings -/

/-- Claim C7, as stated, fails: the climate visualiser header is one of the four, its
feed `locationFeed` stands for `location`, and that topic contains no `/` and is a
single level, so not every topic of every header is hierarchical in the strict sense. -/
theorem locationFeed_not_hierarchical :
    ClimateChangeVisualizations.config ∈ bundles ∧
    resolve ClimateChangeVisualizations.config "locationFeed" = some "location" ∧
    "location" ∈ topicValues ClimateChangeVisualizations.config ∧
    '/' ∉ "location".toList ∧
    levels "location" = ["location".toList] ∧
    ¬ Hierarchical "location" ∧
    ¬ (∀ h ∈ bundles, ∀ t ∈ topicValues h, Hierarchical t) := by
  refine ⟨by decide, by decide, by decide, by decide, by decide, by decide, ?_⟩
  intro hall
  exact absurd (hall ClimateChangeVisualizations.config (by decide) "location" (by decide))
    (by decide)

/-- Claim C7, amended. The four headers hold 15 feed values in total; each of them
splits on `/` into one or more levels, none empty; and each of them other than the
climate visualiser's `locationFeed` contains a `/` and has two or more levels. -/
theorem topics_slash_delimited :
    ((bundles.map fun h => (topicValues h).length).sum = 15) ∧
    (∀ h ∈ bundles, ∀ t ∈ topicValues h,
      1 ≤ (levels t).length ∧ ∀ l ∈ levels t, l ≠ []) ∧
    (∀ h ∈ bundles, ∀ d ∈ feeds h,
      d ≠ Decl.define "locationFeed" "location" → Hierarchical d.value) := by
  decide

/-- Claim C9. Every default topic string of every header is a well-formed topic name
for publishing: non-empty, without `+` or `#`, neither starting nor ending with `/`,
without `//` and without an empty level. -/
theorem topics_wellFormed (h : Header) (hh : h ∈ bundles) (t : String)
    (ht : t ∈ topicValues h) : WellFormedTopic t := by
  revert h t
  decide

/-- Claim C9 at the weather station's `indoorTempFeed`. -/
theorem topics_wellFormed_witness :
    A3_WeatherStation.config ∈ bundles ∧
    "weather/temperature/indoors" ∈ topicValues A3_WeatherStation.config ∧
    WellFormedTopic "weather/temperature/indoors" :=
  ⟨by decide, by decide,
   topics_wellFormed A3_WeatherStation.config (by decide) "weather/temperature/indoors"
     (by decide)⟩

/-! ## Distinctness -/

/-- Claim C8. Within each header taken alone the bound names are pairwise distinct, so
no name is defined twice in the image built from it; names such as `wifi_ssid` and
`lightsFeed` do occur in more than one header. -/
theorem names_distinct_within_header (h : Header) (hh : h ∈ bundles) :
    (boundNames h).Nodup ∧
    ∀ d₁ ∈ h, ∀ d₂ ∈ h, d₁.name = d₂.name → d₁ = d₂ := by
  revert h
  decide

/-- Claim C8 at the tone player header, together with the names it shares with the
weather station header. -/
theorem names_distinct_within_header_witness :
    A4_TwitterTones.config ∈ bundles ∧
    (boundNames A4_TwitterTones.config).Nodup ∧
    "wifi_ssid" ∈ boundNames A3_WeatherStation.config ∧
    "wifi_ssid" ∈ boundNames A4_TwitterTones.config ∧
    "lightsFeed" ∈ boundNames A3_WeatherStation.config ∧
    "lightsFeed" ∈ boundNames A4_TwitterTones.config :=
  ⟨by decide, (names_distinct_within_header A4_TwitterTones.config (by decide)).1,
   by decide, by decide, by decide, by decide⟩

/-- Claim C10. Within each header the topic strings are pairwise distinct, while
`lightsFeed` of the weather station and `lightsFeed` of the tone player both stand for
`lights/livingroom`. -/
theorem topics_distinct_within_header :
    (∀ h ∈ bundles, (topicValues h).Nodup) ∧
    (∀ h ∈ bundles, ∀ d₁ ∈ feeds h, ∀ d₂ ∈ feeds h, d₁.value = d₂.value → d₁ = d₂) ∧
    resolve A3_WeatherStation.config "lightsFeed" = some "lights/livingroom" ∧
    resolve A4_TwitterTones.config "lightsFeed" = some "lights/livingroom" ∧
    resolve A3_WeatherStation.config "lightsFeed" =
      resolve A4_TwitterTones.config "lightsFeed" := by
  decide

end DesignForIot
